import Mathlib

/-!
# Verification of the genre-resolution engine

Shallow embedding of the genre-resolution engine of
`sm-metadata-editor-thing`, together with theorems checking the
natural-language specification against it.

Embedded components:
* `src/genre_search/genre_pick.py` — the best-genre picker
  (`pick_genre`, `get_pop`, `get_regional_pop`, `get_dance_genre`);
* `src/genre_search/genre_search.py` — the orchestrator
  (`GenreSearch.get_genres` and its cache helpers) and the cache
  serialization (`_load_cache` / `_cache_as_dicts`);
* `src/genre_search/genre_search_thread.py` — the batch runner's
  source reordering and its audio-metadata branch;
* `src/genre_search/genre_normalize_window.py` — `build_genre_tree`;
* `src/genre_search/models.py` — the `SearchOptions` dataclass surface;
* `src/models/audio_metadata.py` — the embedded-genre splitting.

Conventions: Python `None` results and in-function exceptions of pure
helpers are modelled with `Option`; exceptions that escape a function are
modelled with `Except`.  Python floats (match scores, thresholds) are
modelled as rationals `ℚ`: the code only ever compares them with `<`, so
only the ordering matters.  Genre tags compared by the picker are the
strings its membership tests inspect.
-/

/-! ## genre_pick.py -/

/-- `genre_pick.get_pop`: return `"Pop"` when the path contains it
(`if 'Pop' in canonicalized_genre: return 'Pop'`), else Python's
implicit `None`. -/
def get_pop (canonicalized_genre : List String) : Option String :=
  if canonicalized_genre.contains "Pop" then some "Pop" else none

/-- The fixed list `regional_pop_genres` inside
`genre_pick.get_regional_pop`, in source order. -/
def regional_pop_genres : List String :=
  ["Arab Pop", "Austropop", "Balkan Pop", "French Pop", "Latin Pop",
   "Nederpop", "Russian Pop", "Iranian Pop", "Mexican Pop", "Turkish Pop",
   "Europop", "Vispop", "J-Pop", "K-Pop", "C-Pop"]

/-- `genre_pick.get_regional_pop`: scan `regional_pop_genres` in order and
return the first one contained in the path. -/
def get_regional_pop (canonicalized_genre : List String) : Option String :=
  regional_pop_genres.find? (fun reg => canonicalized_genre.contains reg)

/-- `genre_pick.get_dance_genre`: when the path contains `"Dance"`,
first drop `"Uk Garage"` (the source copies the list before
`remove`, which deletes the first occurrence), then return the
second-to-last element when more than one element remains, else the
last element. -/
def get_dance_genre (canonicalized_genre : List String) : Option String :=
  if canonicalized_genre.contains "Dance" then
    let g :=
      if canonicalized_genre.contains "Uk Garage" then
        canonicalized_genre.erase "Uk Garage"
      else canonicalized_genre
    if g.length > 1 then g[g.length - 2]? else g[g.length - 1]?
  else none

/-- Python's `max(canonicalized_genres, key=len)`: the first element of
maximal length (`max` keeps the current maximum on ties and raises
`ValueError` on an empty list, modelled as `none`). -/
def max_by_len (xs : List (List String)) : Option (List String) :=
  xs.foldl
    (fun acc g =>
      match acc with
      | none => some g
      | some m => if g.length > m.length then some g else some m)
    none

/-- `genre_pick.pick_genre`: first loop checks each path for a regional
pop tag and then for `"Pop"` (per path, in input order); second loop
checks each path for a dance genre; finally the first element of the
first longest path (`max(..., key=len)[0]`; the `ValueError`/`IndexError`
cases are modelled as `none`). -/
def pick_genre (canonicalized_genres : List (List String)) : Option String :=
  match canonicalized_genres.findSome?
      (fun g => (get_regional_pop g).orElse (fun _ => get_pop g)) with
  | some r => some r
  | none =>
    match canonicalized_genres.findSome? get_dance_genre with
    | some d => some d
    | none => (max_by_len canonicalized_genres).bind List.head?

/-! ## Helper lemmas -/

theorem map_eq_self_of_forall {α : Type} (l : List α) (f : α → α)
    (h : ∀ x ∈ l, f x = x) : l.map f = l := by
  induction l with
  | nil => rfl
  | cons a t ih =>
    simp only [List.map_cons, List.cons.injEq]
    exact ⟨h a (List.mem_cons_self a t), ih fun x hx => h x (List.mem_cons_of_mem a hx)⟩

theorem forall_of_map_eq_self {α : Type} (l : List α) (f : α → α)
    (h : l.map f = l) : ∀ x ∈ l, f x = x := by
  induction l with
  | nil => intro x hx; cases hx
  | cons a t ih =>
    simp only [List.map_cons, List.cons.injEq] at h
    intro x hx
    rcases List.mem_cons.mp hx with rfl | hx
    · exact h.1
    · exact ih h.2 x hx

/-! ## Theorems about the best-genre picker (C1, C2, C9) -/

/-- C1 counterexample: on `[["Pop"], ["Electronic","Dance","J-Pop"]]` the
picker returns `"Pop"`, not `"J-Pop"`: the bare-`"Pop"` check of the first
path fires before the regional-pop check ever reaches the second path. -/
theorem pick_genre_pop_beats_later_regional :
    pick_genre [["Pop"], ["Electronic", "Dance", "J-Pop"]] = some "Pop" ∧
    pick_genre [["Pop"], ["Electronic", "Dance", "J-Pop"]] ≠ some "J-Pop" := by
  constructor <;> decide

/-- C1 (amended): the regional-pop and bare-`"Pop"` checks are evaluated
path by path in input order, so a regional-pop tag takes priority over
`"Pop"` only within the same path or an earlier one: the example returns
`"Pop"`, the reversed example returns `"J-Pop"`, and whenever the first
path has a regional-pop tag the picker returns it. -/
theorem pick_genre_regional_pop_per_path :
    pick_genre [["Pop"], ["Electronic", "Dance", "J-Pop"]] = some "Pop" ∧
    pick_genre [["Electronic", "Dance", "J-Pop"], ["Pop"]] = some "J-Pop" ∧
    ∀ (g : List String) (cs : List (List String)) (r : String),
      get_regional_pop g = some r → pick_genre (g :: cs) = some r := by
  refine ⟨by decide, by decide, ?_⟩
  intro g cs r hreg
  simp [pick_genre, List.findSome?_cons, hreg, Option.orElse]

/-- C1 witness: instantiating the general clause at `[["J-Pop"]]`. -/
theorem pick_genre_regional_pop_per_path_witness :
    pick_genre [["J-Pop"]] = some "J-Pop" :=
  pick_genre_regional_pop_per_path.2.2 ["J-Pop"] [] "J-Pop" (by decide)

/-- C2 counterexample: with no Pop/Dance present the picker returns the
FIRST element of the longest path (`max(..., key=len)[0]`), so on
`[["Rock"], ["Electronic","Synthwave"]]` it returns `"Electronic"`,
not the leaf `"Synthwave"`. -/
theorem pick_genre_longest_head_not_leaf :
    pick_genre [["Rock"], ["Electronic", "Synthwave"]] = some "Electronic" ∧
    pick_genre [["Rock"], ["Electronic", "Synthwave"]] ≠ some "Synthwave" := by
  constructor <;> decide

/-- C2 (amended): when no path triggers the regional-pop, `"Pop"` or
dance tiers, the picker returns the head (root-most, first) element of
the first longest path — ties are broken by the first-encountered longest
path — and in particular `"Electronic"` (not the leaf) on the example. -/
theorem pick_genre_longest_path_head :
    pick_genre [["Rock"], ["Electronic", "Synthwave"]] = some "Electronic" ∧
    pick_genre [["Rock", "Metal"], ["Electronic", "Synthwave"]] = some "Rock" ∧
    ∀ cs : List (List String),
      (∀ g ∈ cs, get_regional_pop g = none) →
      (∀ g ∈ cs, get_pop g = none) →
      (∀ g ∈ cs, get_dance_genre g = none) →
      pick_genre cs = (max_by_len cs).bind List.head? := by
  refine ⟨by decide, by decide, ?_⟩
  intro cs hreg hpop hdance
  have h1 : cs.findSome?
      (fun g => (get_regional_pop g).orElse (fun _ => get_pop g)) = none := by
    rw [List.findSome?_eq_none_iff]
    intro g hg
    simp [hreg g hg, hpop g hg, Option.orElse]
  have h2 : cs.findSome? get_dance_genre = none := by
    rw [List.findSome?_eq_none_iff]
    exact hdance
  simp [pick_genre, h1, h2]

/-- C2 witness: instantiating the general clause at
`[["Rock"], ["Electronic", "Synthwave"]]`. -/
theorem pick_genre_longest_path_head_witness :
    pick_genre [["Rock"], ["Electronic", "Synthwave"]]
      = (max_by_len [["Rock"], ["Electronic", "Synthwave"]]).bind List.head? :=
  pick_genre_longest_path_head.2.2 [["Rock"], ["Electronic", "Synthwave"]]
    (by decide) (by decide) (by decide)

/-- C9: on `[["Electronic","Dance","Uk Garage"]]` the picker returns
`"Electronic"`: the path contains `"Dance"`, `"Uk Garage"` is removed
from a copy, and the second-to-last remaining element is chosen; when
only one element would remain the last element is returned instead
(third conjunct). -/
theorem pick_genre_dance_demotion :
    pick_genre [["Electronic", "Dance", "Uk Garage"]] = some "Electronic" ∧
    get_dance_genre ["Electronic", "Dance", "Uk Garage"] = some "Electronic" ∧
    get_dance_genre ["Dance", "Uk Garage"] = some "Dance" := by
  refine ⟨by decide, by decide, by decide⟩

/-! ## Data model (genre_search.py / fuzzytrackmatch)

`GenreTag` lives in the external `fuzzytrackmatch` package, outside this
repository's sources.  Modelled from the spec: a `GenreTag` is
`{name: string, score: number}`; the score is only ever compared, so it
is modelled as `ℚ`. -/

structure GenreTag where
  name : String
  score : ℚ
deriving DecidableEq, Repr

/-- A genre path: ordered list of tags, root-most first. -/
abbrev GenrePath := List GenreTag

/-- The part of a provider's `TrackMatch` that `get_genres` inspects:
its fuzzy match score. -/
structure TrackMatch where
  match_score : ℚ
deriving DecidableEq, Repr

/-- A provider's `fetch_track_genres` result object: the matched track,
the raw genre tags (`genres`, used for animethemes), and the
canonicalized hierarchical paths (`canonicalized_genres`). -/
structure TrackAndGenres where
  track : TrackMatch
  genres : List GenreTag
  canonicalized_genres : List GenrePath
deriving DecidableEq, Repr

/-- Outcome of calling `searcher.fetch_track_genres(artist, title,
subtitle)` inside `get_genres`' `try` block: the call either returns
(possibly `None`) or raises (any exception is caught and the provider
skipped). -/
inductive FetchOutcome where
  | ok : Option TrackAndGenres → FetchOutcome
  | exn : FetchOutcome
deriving DecidableEq, Repr

/-- The in-memory cache `self.cache: dict[str, dict[str, list[list
[GenreTag]]]]`, modelled by its lookup semantics: a partial map from
(cache key, provider name) to a list of genre paths. -/
def Cache := String → String → Option (List GenrePath)

/-- The empty cache (`self.cache = {}`). -/
def empty_cache : Cache := fun _ _ => none

/-- `GenreSearch._get_from_cache`: present only when both the key and
the provider entry exist. -/
def get_from_cache (c : Cache) (cache_key source : String) :
    Option (List GenrePath) :=
  c cache_key source

/-- `GenreSearch._add_to_cache`: `self.cache[cache_key][source] =
genres.copy()` (creating the outer entry if needed). -/
def add_to_cache (c : Cache) (cache_key : String) (genres : List GenrePath)
    (source : String) : Cache :=
  fun k s => if k = cache_key ∧ s = source then some genres else c k s

/-- The cache key computed by `get_genres`:
`f"{artist}|{title}|{subtitle or ''}"`. -/
def mk_cache_key (artist title : String) (subtitle : Option String) : String :=
  artist ++ "|" ++ title ++ "|" ++ subtitle.getD ""

/-- The genre paths `get_genres` keeps from an accepted match: for
animethemes with a non-empty raw tag list, the single-element path of
the first raw tag (`[[track_and_genres.genres[0]]]`); otherwise the
canonicalized genre paths. -/
def returned_for (so : String) (tg : TrackAndGenres) : List GenrePath :=
  if so = "animethemes" then
    match tg.genres with
    | t :: _ => [[t]]
    | [] => tg.canonicalized_genres
  else tg.canonicalized_genres

/-- The provider loop of `GenreSearch.get_genres`, one step per entry of
`search_order`.  `searchers so = none` models `so ∉ self.searchers`, in
which case the subscript `self.searchers[search_option]` (outside the
`try`) raises `KeyError`, modelled as `Except.error`.  `searchers so =
some fr` gives the outcome of that provider's `fetch_track_genres` for
the query at hand.  The third component instruments the run with the
list of providers actually fetched (network calls made).  State:
accumulated `genres`, the cache, and the fetched list. -/
def get_genres_loop (threshold : ℚ) (searchers : String → Option FetchOutcome)
    (cache_key : String) :
    List String → List GenrePath → Cache → List String →
    Except Unit (List GenrePath × Cache × List String)
  | [], genres, cache, fetched => .ok (genres, cache, fetched)
  | so :: rest, genres, cache, fetched =>
    -- animethemes is skipped if previous options already produced results
    if so = "animethemes" ∧ genres.length > 0 then
      get_genres_loop threshold searchers cache_key rest genres cache fetched
    else
      match get_from_cache cache cache_key so with
      | some cached_genres =>
        get_genres_loop threshold searchers cache_key rest
          (if cached_genres.length > 0 then genres ++ cached_genres else genres)
          cache fetched
      | none =>
        match searchers so with
        | none => .error ()   -- KeyError from self.searchers[search_option]
        | some .exn =>
          -- exception logged, continue with the next provider, no caching
          get_genres_loop threshold searchers cache_key rest genres cache
            (fetched ++ [so])
        | some (.ok none) =>
          -- no track returned: cache a confirmed negative, accumulate nothing
          get_genres_loop threshold searchers cache_key rest genres
            (add_to_cache cache cache_key [] so) (fetched ++ [so])
        | some (.ok (some tg)) =>
          if tg.track.match_score < threshold then
            -- below threshold: skip the result, no cache write
            get_genres_loop threshold searchers cache_key rest genres cache
              (fetched ++ [so])
          else
            get_genres_loop threshold searchers cache_key rest
              (genres ++ returned_for so tg)
              (add_to_cache cache cache_key (returned_for so tg) so)
              (fetched ++ [so])

/-- `GenreSearch.get_genres`: run the provider loop over the configured
search order starting from empty accumulated results. -/
def get_genres (threshold : ℚ) (searchers : String → Option FetchOutcome)
    (search_order : List String) (artist title : String)
    (subtitle : Option String) (cache : Cache) :
    Except Unit (List GenrePath × Cache × List String) :=
  get_genres_loop threshold searchers (mk_cache_key artist title subtitle)
    search_order [] cache []

/-- `GenreSearchThread.__init__`: move animethemes to the end of the
search sources (`list.remove` deletes the first occurrence, then the
name is appended). -/
def reorder_sources (api_search_sources : List String) : List String :=
  if api_search_sources.contains "animethemes" then
    api_search_sources.erase "animethemes" ++ ["animethemes"]
  else api_search_sources

/-! ## Loop lemmas for the orchestrator -/

theorem get_genres_loop_append (threshold : ℚ)
    (searchers : String → Option FetchOutcome) (ck : String)
    (xs ys : List String) (g : List GenrePath) (c : Cache) (f : List String) :
    get_genres_loop threshold searchers ck (xs ++ ys) g c f =
      (get_genres_loop threshold searchers ck xs g c f).bind
        (fun r => get_genres_loop threshold searchers ck ys r.1 r.2.1 r.2.2) := by
  induction xs generalizing g c f with
  | nil => simp [get_genres_loop, Except.bind]
  | cons so rest ih =>
    simp only [List.cons_append, get_genres_loop]
    split
    · exact ih ..
    · split
      · exact ih ..
      · split
        · simp [Except.bind]
        · exact ih ..
        · exact ih ..
        · split
          · exact ih ..
          · exact ih ..

/-- Cache entries already present are never overwritten by the loop:
`_add_to_cache` is only reached on a cache miss for that very pair. -/
theorem get_genres_loop_preserves_some (threshold : ℚ)
    (searchers : String → Option FetchOutcome) (ck : String)
    (order : List String) (g : List GenrePath) (c : Cache) (f : List String)
    (out : List GenrePath × Cache × List String)
    (h : get_genres_loop threshold searchers ck order g c f = .ok out)
    (k s : String) (v : List GenrePath) (hv : c k s = some v) :
    out.2.1 k s = some v := by
  induction order generalizing g c f with
  | nil =>
    simp only [get_genres_loop, Except.ok.injEq] at h
    subst h; exact hv
  | cons so rest ih =>
    simp only [get_genres_loop] at h
    split at h
    · exact ih _ _ _ h hv
    · split at h
      · exact ih _ _ _ h hv
      · rename_i hmiss
        split at h
        · cases h
        · exact ih _ _ _ h hv
        · refine ih _ _ _ h ?_
          simp only [add_to_cache]
          split
          · rename_i heq
            obtain ⟨rfl, rfl⟩ := heq
            simp only [get_from_cache] at hmiss
            rw [hmiss] at hv; cases hv
          · exact hv
        · split at h
          · exact ih _ _ _ h hv
          · refine ih _ _ _ h ?_
            simp only [add_to_cache]
            split
            · rename_i heq
              obtain ⟨rfl, rfl⟩ := heq
              simp only [get_from_cache] at hmiss
              rw [hmiss] at hv; cases hv
            · exact hv

/-- The instrumented fetched list only grows: the final fetched list
extends the initial one. -/
theorem get_genres_loop_fetched_prefix (threshold : ℚ)
    (searchers : String → Option FetchOutcome) (ck : String)
    (order : List String) (g : List GenrePath) (c : Cache) (f : List String)
    (out : List GenrePath × Cache × List String)
    (h : get_genres_loop threshold searchers ck order g c f = .ok out) :
    ∃ tail, out.2.2 = f ++ tail := by
  induction order generalizing g c f with
  | nil =>
    simp only [get_genres_loop, Except.ok.injEq] at h
    subst h; exact ⟨[], by simp⟩
  | cons so rest ih =>
    simp only [get_genres_loop] at h
    split at h
    · exact ih _ _ _ h
    · split at h
      · exact ih _ _ _ h
      · split at h
        · cases h
        · obtain ⟨tail, ht⟩ := ih _ _ _ h
          exact ⟨so :: tail, by simpa using ht⟩
        · obtain ⟨tail, ht⟩ := ih _ _ _ h
          exact ⟨so :: tail, by simpa using ht⟩
        · split at h
          · obtain ⟨tail, ht⟩ := ih _ _ _ h
            exact ⟨so :: tail, by simpa using ht⟩
          · obtain ⟨tail, ht⟩ := ih _ _ _ h
            exact ⟨so :: tail, by simpa using ht⟩

/-- A provider whose fetch raises or whose match is below the threshold
never gets a cache entry written for this query: an initially absent
`(cache_key, provider)` pair stays absent through the whole loop. -/
theorem get_genres_loop_preserves_none (threshold : ℚ)
    (searchers : String → Option FetchOutcome) (ck : String)
    (order : List String) (g : List GenrePath) (c : Cache) (f : List String)
    (out : List GenrePath × Cache × List String) (so : String)
    (h : get_genres_loop threshold searchers ck order g c f = .ok out)
    (hnone : c ck so = none)
    (horacle : searchers so = some .exn ∨
      ∃ tg, searchers so = some (.ok (some tg)) ∧
        tg.track.match_score < threshold) :
    out.2.1 ck so = none := by
  induction order generalizing g c f with
  | nil =>
    simp only [get_genres_loop, Except.ok.injEq] at h
    subst h; exact hnone
  | cons so' rest ih =>
    simp only [get_genres_loop] at h
    split at h
    · exact ih _ _ _ h hnone
    · split at h
      · exact ih _ _ _ h hnone
      · split at h
        · cases h
        · exact ih _ _ _ h hnone
        · rename_i heq
          refine ih _ _ _ h ?_
          simp only [add_to_cache]
          split
          · rename_i hcond
            rw [hcond.2] at horacle
            rcases horacle with hexn | ⟨tg, htg, _⟩
            · rw [heq] at hexn; cases hexn
            · rw [heq] at htg; cases htg
          · exact hnone
        · rename_i heq
          split at h
          · exact ih _ _ _ h hnone
          · rename_i hge
            refine ih _ _ _ h ?_
            simp only [add_to_cache]
            split
            · rename_i hcond
              rw [hcond.2] at horacle
              rcases horacle with hexn | ⟨tg', htg, hlt⟩
              · rw [heq] at hexn; cases hexn
              · rw [heq] at htg
                cases htg
                exact absurd hlt hge
            · exact hnone

/-! ## C3: threshold law -/

/-- C3: when a consulted provider (cache miss, not skipped) returns a
match strictly below the similarity threshold, processing it leaves the
accumulated genres and the cache untouched (only the fetch count grows),
so its genre paths never reach the returned list; moreover the
`(cache_key, provider)` pair, absent before the call, is still absent
from the final cache of any full run, so it can be retried later. -/
theorem get_genres_below_threshold_law (threshold : ℚ)
    (searchers : String → Option FetchOutcome) (ck so : String)
    (rest : List String) (genres : List GenrePath) (cache : Cache)
    (f : List String) (tg : TrackAndGenres)
    (hskip : ¬(so = "animethemes" ∧ genres.length > 0))
    (hmiss : get_from_cache cache ck so = none)
    (hfetch : searchers so = some (.ok (some tg)))
    (hscore : tg.track.match_score < threshold) :
    get_genres_loop threshold searchers ck (so :: rest) genres cache f
      = get_genres_loop threshold searchers ck rest genres cache (f ++ [so]) ∧
    ∀ (order : List String) (out : List GenrePath × Cache × List String),
      get_genres_loop threshold searchers ck order [] cache [] = .ok out →
      out.2.1 ck so = none := by
  constructor
  · simp only [get_genres_loop]
    rw [if_neg hskip, hmiss, hfetch]
    simp only [if_pos hscore]
  · intro order out h
    exact get_genres_loop_preserves_none threshold searchers ck order [] cache
      [] out so h hmiss (Or.inr ⟨tg, hfetch, hscore⟩)

/-- A below-threshold lastfm match used by the C3 witness: score `0`,
with one canonicalized path. -/
def tm_low : TrackAndGenres :=
  ⟨⟨0⟩, [], [[⟨"Rock", 1⟩]]⟩

/-- Concrete searchers for witnesses: lastfm returns a below-threshold
match, discogs confirms "no match". -/
def searchers_w : String → Option FetchOutcome :=
  fun so =>
    if so = "lastfm" then some (.ok (some tm_low))
    else if so = "discogs" then some (.ok none)
    else none

/-- C3 witness: instantiates the threshold law (with threshold `1`) at
the concrete run `["discogs", "lastfm"]` from the empty cache. -/
theorem get_genres_below_threshold_law_witness :
    (get_genres_loop 1 searchers_w "a|t|" ["lastfm"] [] empty_cache []
      = get_genres_loop 1 searchers_w "a|t|" [] [] empty_cache
          ["lastfm"]) ∧
    (add_to_cache empty_cache "a|t|" [] "discogs") "a|t|" "lastfm" = none := by
  have happ := get_genres_below_threshold_law 1 searchers_w "a|t|"
    "lastfm" [] [] empty_cache [] tm_low
    (by decide)
    (by rfl)
    (by rfl)
    (by norm_num [tm_low])
  refine ⟨happ.1, ?_⟩
  exact happ.2 ["discogs", "lastfm"]
    ([], add_to_cache empty_cache "a|t|" [] "discogs", ["discogs", "lastfm"])
    (by rfl)

/-! ## C4: fallback ordering -/

/-- C4: for a configured source list containing animethemes (once), the
batch runner's reordering puts animethemes last, after every other
configured provider; and whenever the run over the other providers
accumulates at least one genre path, the full reordered run returns
exactly that run's result — animethemes is skipped, contributing no
paths and making no fetch. -/
theorem animethemes_last_resort (threshold : ℚ)
    (searchers : String → Option FetchOutcome) (ck : String)
    (sources : List String)
    (hcount : sources.count "animethemes" = 1) :
    (reorder_sources sources
        = sources.erase "animethemes" ++ ["animethemes"] ∧
      "animethemes" ∉ sources.erase "animethemes") ∧
    ∀ (c : Cache) (g₀ : List GenrePath) (c₀ : Cache) (f₀ : List String),
      get_genres_loop threshold searchers ck (sources.erase "animethemes")
          [] c [] = .ok (g₀, c₀, f₀) →
      g₀ ≠ [] →
      get_genres_loop threshold searchers ck (reorder_sources sources)
          [] c [] = .ok (g₀, c₀, f₀) := by
  have hmem : "animethemes" ∈ sources := by
    rw [← List.count_pos_iff, hcount]; norm_num
  have hre : reorder_sources sources
      = sources.erase "animethemes" ++ ["animethemes"] := by
    simp only [reorder_sources, List.elem_iff.mpr hmem, if_pos]
  have hnotmem : "animethemes" ∉ sources.erase "animethemes" := by
    rw [← List.count_eq_zero, List.count_erase_self, hcount]
  refine ⟨⟨hre, hnotmem⟩, ?_⟩
  intro c g₀ c₀ f₀ h0 hne
  rw [hre, get_genres_loop_append, h0]
  have hp : 0 < g₀.length := List.length_pos.mpr hne
  simp [Except.bind, get_genres_loop, hp]

/-- An above-threshold lastfm match used by the C4/C5 witnesses. -/
def tm_hi : TrackAndGenres :=
  ⟨⟨1⟩, [], [[⟨"Rock", 1⟩]]⟩

/-- Concrete searchers for the C4/C5 witnesses: lastfm matches with
score 1; animethemes would answer as well, but is never reached. -/
def searchers_w2 : String → Option FetchOutcome :=
  fun so =>
    if so = "lastfm" then some (.ok (some tm_hi))
    else if so = "animethemes" then
      some (.ok (some (⟨⟨1⟩, [⟨"Anime", 1⟩], []⟩ : TrackAndGenres)))
    else none

/-- C4 witness: with configured sources `["animethemes", "lastfm"]`
(animethemes FIRST) and lastfm producing a path, the reordered full run
equals the lastfm-only run: animethemes is demoted to last and skipped. -/
theorem animethemes_last_resort_witness :
    get_genres_loop 1 searchers_w2 "a|t|"
        (reorder_sources ["animethemes", "lastfm"]) [] empty_cache []
      = .ok ([[⟨"Rock", 1⟩]],
          add_to_cache empty_cache "a|t|" [[⟨"Rock", 1⟩]] "lastfm",
          ["lastfm"]) := by
  exact (animethemes_last_resort 1 searchers_w2 "a|t|"
      ["animethemes", "lastfm"] (by decide)).2
    empty_cache [[⟨"Rock", 1⟩]]
    (add_to_cache empty_cache "a|t|" [[⟨"Rock", 1⟩]] "lastfm") ["lastfm"]
    (by rfl) (by decide)

/-! ## C5: warm-cache idempotence -/

theorem accum_if_eq {α : Type} (g v : List α) :
    (if v.length > 0 then g ++ v else g) = g ++ v := by
  split
  · rfl
  · rename_i hlen
    cases v with
    | nil => simp
    | cons a t => simp at hlen

/-- Warm-run lemma: if a run ends in state `(g₁, c₁, f₁)` and every
provider it fetched has a cache entry in the final cache `c₁`, then
re-running the same order from the same accumulated genres against
`c₁` fetches nothing and reproduces `g₁` and `c₁`. -/
theorem get_genres_loop_warm (threshold : ℚ)
    (searchers : String → Option FetchOutcome) (ck : String)
    (order : List String) (g₁ : List GenrePath) (c₁ : Cache)
    (f₁ : List String)
    (h2 : ∀ so ∈ f₁, c₁ ck so ≠ none) :
    ∀ (g : List GenrePath) (c : Cache) (f : List String),
      get_genres_loop threshold searchers ck order g c f = .ok (g₁, c₁, f₁) →
      ∀ f', get_genres_loop threshold searchers ck order g c₁ f'
        = .ok (g₁, c₁, f') := by
  induction order with
  | nil =>
    intro g c f h f'
    simp only [get_genres_loop, Except.ok.injEq, Prod.mk.injEq] at h
    obtain ⟨rfl, rfl, rfl⟩ := h
    rfl
  | cons so rest ih =>
    intro g c f h f'
    simp only [get_genres_loop] at h ⊢
    by_cases hskip : so = "animethemes" ∧ g.length > 0
    · rw [if_pos hskip] at h ⊢
      exact ih g c f h f'
    · rw [if_neg hskip] at h ⊢
      cases hc : get_from_cache c ck so with
      | some v =>
        simp only [hc] at h
        have hc1 : c₁ ck so = some v :=
          get_genres_loop_preserves_some threshold searchers ck rest _ c _
            (g₁, c₁, f₁) h ck so v hc
        simp only [get_from_cache, hc1]
        exact ih _ c f h f'
      | none =>
        simp only [hc] at h
        have hcn : c ck so = none := hc
        cases hs : searchers so with
        | none =>
          simp only [hs] at h
          cases h
        | some fr =>
          cases fr with
          | exn =>
            simp only [hs] at h
            obtain ⟨tail, htail⟩ :=
              get_genres_loop_fetched_prefix threshold searchers ck rest g c
                (f ++ [so]) (g₁, c₁, f₁) h
            have hso : so ∈ f₁ := by
              have h3 : f₁ = f ++ [so] ++ tail := htail
              rw [h3]; simp
            have hnone : c₁ ck so = none :=
              get_genres_loop_preserves_none threshold searchers ck rest g c
                (f ++ [so]) (g₁, c₁, f₁) so h hcn (Or.inl hs)
            exact absurd hnone (h2 so hso)
          | ok opt =>
            cases opt with
            | none =>
              simp only [hs] at h
              have hc1 : c₁ ck so = some [] :=
                get_genres_loop_preserves_some threshold searchers ck rest g _
                  (f ++ [so]) (g₁, c₁, f₁) h ck so [] (by simp [add_to_cache])
              simp only [get_from_cache, hc1]
              simpa using ih g _ _ h f'
            | some tg =>
              simp only [hs] at h
              by_cases hth : tg.track.match_score < threshold
              · rw [if_pos hth] at h
                obtain ⟨tail, htail⟩ :=
                  get_genres_loop_fetched_prefix threshold searchers ck rest g
                    c (f ++ [so]) (g₁, c₁, f₁) h
                have hso : so ∈ f₁ := by
                  have h3 : f₁ = f ++ [so] ++ tail := htail
                  rw [h3]; simp
                have hnone : c₁ ck so = none :=
                  get_genres_loop_preserves_none threshold searchers ck rest g
                    c (f ++ [so]) (g₁, c₁, f₁) so h hcn
                    (Or.inr ⟨tg, hs, hth⟩)
                exact absurd hnone (h2 so hso)
              · rw [if_neg hth] at h
                have hc1 : c₁ ck so = some (returned_for so tg) :=
                  get_genres_loop_preserves_some threshold searchers ck rest
                    _ _ (f ++ [so]) (g₁, c₁, f₁) h ck so (returned_for so tg)
                    (by simp [add_to_cache])
                simp only [get_from_cache, hc1, accum_if_eq]
                exact ih _ _ _ h f'

/-- C5: if a call to `get_genres` ends with every fetched provider's
`(key, provider)` pair written to cache (warm cache), then a second call
with identical inputs against the resulting cache performs zero provider
fetches and returns the same genre list (and the same cache). -/
theorem get_genres_warm_cache_idempotent (threshold : ℚ)
    (searchers : String → Option FetchOutcome) (order : List String)
    (artist title : String) (subtitle : Option String) (c : Cache)
    (g₁ : List GenrePath) (c₁ : Cache) (f₁ : List String)
    (h1 : get_genres threshold searchers order artist title subtitle c
      = .ok (g₁, c₁, f₁))
    (h2 : ∀ so ∈ f₁,
      get_from_cache c₁ (mk_cache_key artist title subtitle) so ≠ none) :
    get_genres threshold searchers order artist title subtitle c₁
      = .ok (g₁, c₁, []) := by
  unfold get_genres at h1 ⊢
  exact get_genres_loop_warm threshold searchers
    (mk_cache_key artist title subtitle) order g₁ c₁ f₁ h2 [] c [] h1 []

/-- C5 witness: a single-provider run from the empty cache writes its
result; the repeated call against the written cache fetches nothing and
returns the same list. -/
theorem get_genres_warm_cache_idempotent_witness :
    get_genres 1 searchers_w2 ["lastfm"] "a" "t" none
        (add_to_cache empty_cache "a|t|" [[⟨"Rock", 1⟩]] "lastfm")
      = .ok ([[⟨"Rock", 1⟩]],
          add_to_cache empty_cache "a|t|" [[⟨"Rock", 1⟩]] "lastfm", []) :=
  get_genres_warm_cache_idempotent 1 searchers_w2 ["lastfm"] "a" "t" none
    empty_cache [[⟨"Rock", 1⟩]]
    (add_to_cache empty_cache "a|t|" [[⟨"Rock", 1⟩]] "lastfm") ["lastfm"]
    (by rfl) (by decide)

/-! ## C7: cache serialization round-trip -/

/-- A serialized tag: the JSON object `{name, score}` written by
`_cache_as_dicts` via `g.__dict__` (the `GenreTag` dataclass has exactly
these two fields). -/
structure TagDict where
  name : String
  score : ℚ
deriving DecidableEq, Repr

/-- The in-memory cache as Python builds it in `_load_cache`:
key → provider → list of genre paths. -/
abbrev CacheData := List (String × List (String × List (List GenreTag)))

/-- The serialized cache as `_cache_as_dicts` produces it and the JSON
file stores it: key → provider → list of lists of tag dicts. -/
abbrev CacheFile := List (String × List (String × List (List TagDict)))

/-- Modelled from the spec: `GenreTag.from_dict` of the external
`fuzzytrackmatch` package (not under src/), which rebuilds a
`GenreTag` from its `{name, score}` mapping. -/
def GenreTag.from_dict (d : TagDict) : GenreTag :=
  ⟨d.name, d.score⟩

/-- `g.__dict__` of a `GenreTag` dataclass instance: its `{name, score}`
mapping, as serialized by `_cache_as_dicts`. -/
def GenreTag.as_dict (g : GenreTag) : TagDict :=
  ⟨g.name, g.score⟩

/-- `GenreSearch._load_cache`'s rebuild loop: for every key and source,
map `GenreTag.from_dict` over every tag of every genre group. -/
def load_cache (loaded_cache : CacheFile) : CacheData :=
  loaded_cache.map fun kv =>
    (kv.1, kv.2.map fun sv =>
      (sv.1, sv.2.map fun genres => genres.map GenreTag.from_dict))

/-- `GenreSearch._cache_as_dicts`: for every key and source, map
`g.__dict__` over every tag of every genre group. -/
def cache_as_dicts (cache : CacheData) : CacheFile :=
  cache.map fun kv =>
    (kv.1, kv.2.map fun sv =>
      (sv.1, sv.2.map fun genres => genres.map GenreTag.as_dict))

/-- C7: the save/load pair round-trips: serializing the cache,
deserializing it, and serializing again gives exactly the first
serialization (for non-empty caches, as claimed — the proof needs no
non-emptiness). -/
theorem cache_save_load_save_roundtrip (cache : CacheData)
    (_hne : cache ≠ []) :
    cache_as_dicts (load_cache (cache_as_dicts cache))
      = cache_as_dicts cache := by
  clear _hne
  simp only [cache_as_dicts, load_cache, List.map_map]
  refine List.map_congr_left fun kv _ => ?_
  simp only [Function.comp_apply]
  refine congrArg (Prod.mk kv.1) ?_
  simp only [List.map_map]
  refine List.map_congr_left fun sv _ => ?_
  simp only [Function.comp_apply]
  refine congrArg (Prod.mk sv.1) ?_
  simp only [List.map_map]
  refine List.map_congr_left fun genres _ => ?_
  simp only [Function.comp_apply]
  simp only [List.map_map]
  refine List.map_congr_left fun g _ => ?_
  rfl

/-- C7 witness: the round-trip evaluated on a concrete one-entry cache. -/
theorem cache_save_load_save_roundtrip_witness :
    cache_as_dicts (load_cache (cache_as_dicts
        [("a|t|", [("lastfm", [[⟨"Rock", 1⟩, ⟨"Pop", 2⟩]])])]))
      = cache_as_dicts [("a|t|", [("lastfm", [[⟨"Rock", 1⟩, ⟨"Pop", 2⟩]])])] :=
  cache_save_load_save_roundtrip
    [("a|t|", [("lastfm", [[⟨"Rock", 1⟩, ⟨"Pop", 2⟩]])])] (by decide)

/-! ## C6: path immutability and build_genre_tree -/

/-- The nested-dict tree built by
`GenreNormalizationDialog.build_genre_tree`: each level maps a genre
name to its subtree, in insertion order. -/
inductive GenreTree where
  | node : List (String × GenreTree) → GenreTree

/-- One `for genre in path` walk of `build_genre_tree`: descend through
the children by `genre.name`, creating missing levels (a new key is
appended at the end of the dict, preserving insertion order). -/
def insert_tags : List GenreTag → GenreTree → GenreTree
  | [], t => t
  | g :: rest, GenreTree.node cs =>
    match cs.lookup g.name with
    | some _ =>
      GenreTree.node (cs.map fun c =>
        if c.1 = g.name then (c.1, insert_tags rest c.2) else c)
    | none =>
      GenreTree.node (cs ++ [(g.name, insert_tags rest (GenreTree.node []))])

/-- `build_genre_tree`, with its state effect made explicit: the source
runs `path.reverse()` — Python's IN-PLACE reversal — on every path
before inserting it, so the call returns the tree together with the
caller's `genre_paths` as they are left after the call: every path
reversed. -/
def build_genre_tree_st (genre_paths : List (List GenreTag)) :
    GenreTree × List (List GenreTag) :=
  (genre_paths.foldl (fun tree path => insert_tags path.reverse tree)
      (GenreTree.node []),
   genre_paths.map List.reverse)

/-- `get_dance_genre` with its state effect made explicit: the source
copies the list (`canonicalized_genre.copy()`) before `remove`, so the
caller's list is returned unchanged. -/
def get_dance_genre_st (canonicalized_genre : List String) :
    Option String × List String :=
  (get_dance_genre canonicalized_genre, canonicalized_genre)

/-- C6 counterexample: `build_genre_tree` does NOT leave its argument's
paths unmodified: on `[["Electronic","Dance"]]` the paths after the
call are `[["Dance","Electronic"]]`. -/
theorem build_genre_tree_mutates_paths :
    (build_genre_tree_st [[⟨"Electronic", 1⟩, ⟨"Dance", 2⟩]]).2
      ≠ [[⟨"Electronic", 1⟩, ⟨"Dance", 2⟩]] ∧
    (build_genre_tree_st [[⟨"Electronic", 1⟩, ⟨"Dance", 2⟩]]).2
      = [[⟨"Dance", 2⟩, ⟨"Electronic", 1⟩]] := by
  constructor <;> decide

/-- C6 (amended): `get_dance_genre` leaves its input unchanged (it works
on a copy), but `build_genre_tree` reverses each path of its argument in
place: afterwards the argument holds the reversals of the original
paths, so the paths survive unmodified exactly when every path is a
palindrome. -/
theorem build_genre_tree_reverses_in_place
    (genre_paths : List (List GenreTag)) (g : List String) :
    (build_genre_tree_st genre_paths).2 = genre_paths.map List.reverse ∧
    (get_dance_genre_st g).2 = g ∧
    ((build_genre_tree_st genre_paths).2 = genre_paths ↔
      ∀ p ∈ genre_paths, p.reverse = p) := by
  refine ⟨rfl, rfl, ?_⟩
  constructor
  · intro h
    exact forall_of_map_eq_self genre_paths List.reverse h
  · intro h
    exact map_eq_self_of_forall genre_paths List.reverse h

/-- C6 witness: the amended statement evaluated on a concrete two-tag
path. -/
theorem build_genre_tree_reverses_in_place_witness :
    (build_genre_tree_st [[⟨"Electronic", 1⟩, ⟨"Dance", 2⟩]]).2
      = [[⟨"Electronic", 1⟩, ⟨"Dance", 2⟩]].map List.reverse :=
  (build_genre_tree_reverses_in_place
    [[⟨"Electronic", 1⟩, ⟨"Dance", 2⟩]] ["Dance"]).1

/-! ## C8: audio-metadata genre splitting and the thread's audio branch -/

/-- Python's `str.split(sep)` at character level: split the character
list at every occurrence of `sep`; `"".split(sep) == [""]`. -/
def split_char (sep : Char) : List Char → List (List Char)
  | [] => [[]]
  | c :: rest =>
    match split_char sep rest with
    | h :: t => if c = sep then [] :: h :: t else (c :: h) :: t
    | [] => if c = sep then [[], []] else [[c]]

/-- Python's `str.split(sep)` for a single-character separator. -/
def py_split (s : String) (sep : Char) : List String :=
  (split_char sep s.toList).map String.mk

/-- Python's `sep in s` for a single-character separator. -/
def py_contains (s : String) (sep : Char) : Bool :=
  s.toList.contains sep

/-- Python's `str.strip()`: drop leading and trailing whitespace. -/
def py_strip (s : String) : String :=
  String.mk
    (((s.toList.dropWhile Char.isWhitespace).reverse.dropWhile
        Char.isWhitespace).reverse)

/-- The genre-splitting loop of `AudioMetadata.from_audio_file`: each
raw `GENRE` entry is split on `"/"` when the entry contains a slash;
otherwise the source tests `";" in genre` — membership of the string
`";"` in the LIST of raw entries, not a substring test on the entry —
and splits on `";"` only then; otherwise the entry is kept whole.
Finally falsy (empty) entries are dropped and the rest stripped
(`[g.strip() for g in genres if g]`). -/
def split_audio_genres (genre : List String) : List String :=
  let genres := genre.foldl
    (fun acc g =>
      if py_contains g '/' then acc ++ py_split g '/'
      else if genre.contains ";" then acc ++ py_split g ';'
      else acc ++ [g])
    []
  (genres.filter (fun g => g ≠ "")).map py_strip

/-- The fields declared by the `AudioMetadata` dataclass
(`src/models/audio_metadata.py`). -/
def audio_metadata_fields : List String :=
  ["title", "artist", "album", "genres"]

/-- The attributes defined on the `GenreSearch` class
(`src/genre_search/genre_search.py`). -/
def genre_search_methods : List String :=
  ["__init__", "get_genres", "_setup_searchers", "_get_from_cache",
   "_add_to_cache", "_load_cache", "_cache_as_dicts", "_save_cache"]

/-- The audio-genre branch of
`GenreSearchThread._do_search_for_simfile` (lines 104-107): it reads
`audio_metadata.genre` and, when truthy, calls
`self.genre_search.normalize_genre(...)`; an attribute lookup whose
name is not declared raises `AttributeError`. -/
def thread_audio_genre_step (result : List GenrePath) :
    Except String (List GenrePath) :=
  if audio_metadata_fields.contains "genre" then
    if genre_search_methods.contains "normalize_genre" then
      -- unreachable: normalize_genre does not exist anywhere in src
      .ok result
    else .error "AttributeError: normalize_genre"
  else .error "AttributeError: genre"

/-- C8 (code bug): the audio-genre merge can never run: `AudioMetadata`
declares `genres`, not `genre`, so the thread's `audio_metadata.genre`
raises `AttributeError` (and `GenreSearch.normalize_genre` does not
exist either); moreover the `';'` split in `from_audio_file` tests
membership of `";"` in the list instead of the string, so
`"Pop;Rock"` is NOT split while `"Pop/Rock"` is. -/
theorem audio_genre_branch_raises :
    thread_audio_genre_step [] = .error "AttributeError: genre" ∧
    audio_metadata_fields.contains "genre" = false ∧
    genre_search_methods.contains "normalize_genre" = false ∧
    split_audio_genres ["Pop/Rock"] = ["Pop", "Rock"] ∧
    split_audio_genres ["Pop;Rock"] = ["Pop;Rock"] ∧
    split_audio_genres ["Pop;Rock", ";"] = ["Pop", "Rock"] := by
  refine ⟨by rfl, by decide, by decide, by decide, by decide, by decide⟩

/-! ## C10: the SearchOptions constructor call -/

/-- The fields declared by the `SearchOptions` dataclass
(`src/genre_search/models.py`); a dataclass `__init__` accepts exactly
its declared fields as keyword arguments. -/
def search_options_fields : List String :=
  ["lastfm_api_key", "discogs_api_key", "api_search_order", "cache_file"]

/-- The keyword arguments passed to `SearchOptions(...)` by
`GenreSearchThread._setup_genre_search` (line 46). -/
def setup_genre_search_kwargs : List String :=
  ["lastfm_api_key", "discogs_api_key", "api_search_order", "cache_file",
   "similarity_threshold"]

/-- The keyword arguments of a dataclass constructor call that match no
declared field; a Python dataclass `__init__` raises
`TypeError: __init__() got an unexpected keyword argument ...` whenever
this list is non-empty, regardless of the argument values. -/
def dataclass_unexpected_kwargs (fields kwargs : List String) :
    List String :=
  kwargs.filter (fun k => !(fields.contains k))

/-- C10: the batch runner's `SearchOptions(...)` call passes the
keyword `similarity_threshold`, which is not a declared field of
`SearchOptions`, so the construction raises `TypeError` for all input
values; consequently `self.options.similarity_threshold` (read in
`get_genres`) has no corresponding declared field either. -/
theorem search_options_unexpected_kwarg :
    dataclass_unexpected_kwargs search_options_fields
        setup_genre_search_kwargs = ["similarity_threshold"] ∧
    search_options_fields.contains "similarity_threshold" = false ∧
    setup_genre_search_kwargs.contains "similarity_threshold" = true := by
  refine ⟨by decide, by decide, by decide⟩
